import Mathlib

/-!
Verification of the scheduled stock-analysis refresh pipeline of the
ai-stock-dashboard backend: data model, scheduler cycle, stock fetch
service, AI scoring services, rate limiter, and the dashboard route.
Python floats are modelled as rationals, timestamps as naturals, and
Python exceptions as an explicit error type carried in `Except`.
-/

namespace StockDash

/-- Python exceptions raised by the services: the classes exceptions.py
defines (YahooFinanceException, AlphaVantageException, OpenAIException,
GroqException), pydantic's ValidationError, and a generic constructor
for any other Exception.  stock_service.py also imports a
PolygonException that exceptions.py never defines — that class cannot
be raised (the import itself fails), so it has no constructor here;
see the exceptions-import theorem below. -/
inductive PyExc where
  | yahooFinance (msg : String)
  | alphaVantage (msg : String)
  | openAI (msg : String)
  | groq (msg : String)
  | validationError (msg : String)
  | generic (msg : String)
deriving DecidableEq, Repr

/-- The message carried by a modelled Python exception. -/
def PyExc.msg : PyExc → String
  | .yahooFinance m => m
  | .alphaVantage m => m
  | .openAI m => m
  | .groq m => m
  | .validationError m => m
  | .generic m => m

/-- models.StockData (pydantic model): one normalized quote. -/
structure StockData where
  symbol : String
  current_price : ℚ
  previous_close : ℚ
  change_percent : ℚ
  volume : Int
  market_cap : Option ℚ
  last_updated : Nat
deriving DecidableEq, Repr

/-- models.AIModelType. -/
inductive AIModelType where
  | basic
  | warren_buffet
  | peter_lynch
  | dcf_math
deriving DecidableEq, Repr

/-- models.AIAnalysis: one score plus rationale.  `ai_model` is a
required pydantic field (models.py:91, no default), so every value of
this type carries one; call sites that omit the field raise
ValidationError and produce no value — see `pydanticAIAnalysis`. -/
structure AIAnalysis where
  ai_model : AIModelType
  score : Int
  reason : String
deriving DecidableEq, Repr

/-- The message of the ValidationError pydantic raises when
models.AIAnalysis is constructed without its required ai_model field. -/
def pydanticValidationMsg : String :=
  "1 validation error for AIAnalysis: ai_model field required"

/-- Constructing models.AIAnalysis through pydantic: with the ai_model
keyword present the record is built, without it the required-field
check raises ValidationError. -/
def pydanticAIAnalysis (ai_model : Option AIModelType) (score : Int)
    (reason : String) : Except PyExc AIAnalysis :=
  match ai_model with
  | none => .error (.validationError pydanticValidationMsg)
  | some m => .ok { ai_model := m, score := score, reason := reason }

/-- models.MultiAIAnalysis. -/
structure MultiAIAnalysis where
  analyses : List AIAnalysis
  average_score : ℚ
  timestamp : Nat
deriving DecidableEq, Repr

/-- models.StockAnalysis: the published analysis record. -/
structure StockAnalysis where
  stock_data : StockData
  ai_analysis : MultiAIAnalysis
  timestamp : Nat
deriving DecidableEq, Repr

/-- One entry of SchedulerService.latest_errors
(a dict with keys type, symbol, message). -/
structure RefreshError where
  type : String
  symbol : String
  message : String
deriving DecidableEq, Repr

/-- The aggregate score a record is ranked by. -/
def StockAnalysis.avgScore (r : StockAnalysis) : ℚ :=
  r.ai_analysis.average_score

/-- One step of the stable descending sort:
insert a record in front of the first element whose average score is
not above it (new element goes after existing equal-score elements,
matching the stability of Python list.sort with reverse=True). -/
def insertScoreDesc (a : StockAnalysis) : List StockAnalysis → List StockAnalysis
  | [] => [a]
  | b :: l =>
      if b.avgScore ≤ a.avgScore then a :: b :: l
      else b :: insertScoreDesc a l

/-- analysis_results.sort(key=lambda x: x.ai_analysis.average_score,
reverse=True): stable sort by average score, highest first. -/
def sortByScoreDesc : List StockAnalysis → List StockAnalysis
  | [] => []
  | a :: l => insertScoreDesc a (sortByScoreDesc l)

theorem mem_insertScoreDesc {x a : StockAnalysis} {l : List StockAnalysis} :
    x ∈ insertScoreDesc a l ↔ x = a ∨ x ∈ l := by
  induction l with
  | nil => simp [insertScoreDesc]
  | cons b t ih =>
      by_cases h : b.avgScore ≤ a.avgScore
      · simp [insertScoreDesc, h]
      · simp [insertScoreDesc, h, ih]
        tauto

theorem mem_sortByScoreDesc {x : StockAnalysis} {l : List StockAnalysis} :
    x ∈ sortByScoreDesc l ↔ x ∈ l := by
  induction l with
  | nil => simp [sortByScoreDesc]
  | cons a t ih => simp [sortByScoreDesc, mem_insertScoreDesc, ih]

theorem countP_insertScoreDesc (p : StockAnalysis → Bool) (a : StockAnalysis)
    (l : List StockAnalysis) :
    (insertScoreDesc a l).countP p = ((if p a then 1 else 0) + l.countP p) := by
  induction l with
  | nil => simp [insertScoreDesc, List.countP_cons]
  | cons b t ih =>
      by_cases h : b.avgScore ≤ a.avgScore
      · simp [insertScoreDesc, h, List.countP_cons]
        omega
      · simp [insertScoreDesc, h, List.countP_cons, ih]
        omega

theorem countP_sortByScoreDesc (p : StockAnalysis → Bool) (l : List StockAnalysis) :
    (sortByScoreDesc l).countP p = l.countP p := by
  induction l with
  | nil => rfl
  | cons a t ih =>
      simp [sortByScoreDesc, countP_insertScoreDesc, ih, List.countP_cons]
      omega

/-- The published order is descending in the aggregate score. -/
theorem sorted_insertScoreDesc (a : StockAnalysis) (l : List StockAnalysis)
    (h : l.Pairwise (fun x y => y.avgScore ≤ x.avgScore)) :
    (insertScoreDesc a l).Pairwise (fun x y => y.avgScore ≤ x.avgScore) := by
  induction l with
  | nil => simp [insertScoreDesc]
  | cons b t ih =>
      rcases List.pairwise_cons.mp h with ⟨hb, ht⟩
      by_cases hba : b.avgScore ≤ a.avgScore
      · rw [insertScoreDesc, if_pos hba]
        refine List.pairwise_cons.mpr ⟨?_, h⟩
        intro y hy
        rcases List.mem_cons.mp hy with rfl | hyt
        · exact hba
        · exact le_trans (hb y hyt) hba
      · rw [insertScoreDesc, if_neg hba]
        refine List.pairwise_cons.mpr ⟨?_, ih ht⟩
        intro y hy
        rcases mem_insertScoreDesc.mp hy with rfl | hyt
        · exact le_of_not_le hba
        · exact hb y hyt

theorem sorted_sortByScoreDesc (l : List StockAnalysis) :
    (sortByScoreDesc l).Pairwise (fun x y => y.avgScore ≤ x.avgScore) := by
  induction l with
  | nil => simp [sortByScoreDesc]
  | cons a t ih => exact sorted_insertScoreDesc a _ ih

/-- Stability: the records holding any fixed score value appear in the
same order as in the unsorted input. -/
theorem filter_score_insertScoreDesc (q : ℚ) (a : StockAnalysis)
    (l : List StockAnalysis) :
    (insertScoreDesc a l).filter (fun x => x.avgScore = q) =
      (if a.avgScore = q then a :: l.filter (fun x => x.avgScore = q)
       else l.filter (fun x => x.avgScore = q)) := by
  induction l with
  | nil =>
      by_cases h : a.avgScore = q <;> simp [insertScoreDesc, List.filter, h]
  | cons b t ih =>
      by_cases hba : b.avgScore ≤ a.avgScore
      · rw [insertScoreDesc, if_pos hba]
        by_cases ha : a.avgScore = q <;> simp [List.filter_cons, ha]
      · have hlt : a.avgScore < b.avgScore := lt_of_not_le hba
        rw [insertScoreDesc, if_neg hba]
        by_cases ha : a.avgScore = q
        · have hbq : ¬ (b.avgScore = q) := by
            intro hb; exact absurd (hb ▸ ha ▸ hlt) (lt_irrefl _)
          rw [if_pos ha] at ih ⊢
          simp [List.filter_cons, hbq, ih]
        · rw [if_neg ha] at ih ⊢
          by_cases hbq : b.avgScore = q <;>
            simp [List.filter_cons, hbq, ih]

theorem filter_score_sortByScoreDesc (q : ℚ) (l : List StockAnalysis) :
    (sortByScoreDesc l).filter (fun x => x.avgScore = q) =
      l.filter (fun x => x.avgScore = q) := by
  induction l with
  | nil => rfl
  | cons a t ih =>
      by_cases h : a.avgScore = q <;>
        simp [sortByScoreDesc, filter_score_insertScoreDesc, h, ih,
          List.filter_cons]

/-! ## Scheduler service (services/scheduler.py)

The mutable fields of `SchedulerService` that the refresh cycle and its
readers touch.  `_update_stock_analysis_async` is embedded twice: as the
final state it produces (`update_cycle`) and as the list of intermediate
states the shared fields pass through (`cycle_trace`), one entry per
primitive mutation, which is what a concurrent reader can observe. -/

structure SchedulerState where
  latest_analysis : List StockAnalysis
  last_updated : Option Nat
  latest_errors : List RefreshError
  is_updating : Bool
deriving DecidableEq, Repr

/-- The environment one refresh cycle runs against: the stock fetcher
(StockService.fetch_stock_data), the scorer (AIService.analyze_stock),
the outcome of config.get_stock_symbols() (`Except.error` when reading
the configured symbol list raises), the order in which
concurrent.futures.as_completed yields the per-symbol futures, and the
cycle's datetime.now() timestamp. -/
structure CycleInput where
  fetch : String → Except PyExc (Option StockData)
  analyze : StockData → Except PyExc AIAnalysis
  symbolsResult : Except String (List String)
  completion_order : List String
  t : Nat

/-- SchedulerService.analyze_single_stock: fetch, score, build the
record; every exception (StockDataException, AIAnalysisException, or
anything else) is caught and turned into `none`, as is an absent quote. -/
def analyze_single_stock (fetch : String → Except PyExc (Option StockData))
    (analyze : StockData → Except PyExc AIAnalysis) (t : Nat)
    (symbol : String) : Option StockAnalysis :=
  match fetch symbol with
  | .error _ => none
  | .ok none => none
  | .ok (some stock_data) =>
      match analyze stock_data with
      | .error _ => none
      | .ok ai_analysis =>
          some { stock_data := stock_data,
                 ai_analysis := { analyses := [ai_analysis],
                                  average_score := (ai_analysis.score : ℚ),
                                  timestamp := t },
                 timestamp := t }

/-- The general error recorded against the "system" sentinel when the
cycle body raises wholesale. -/
def systemError (msg : String) : RefreshError :=
  { type := "general", symbol := "system",
    message := "Error during stock analysis update: " ++ msg }

/-- SchedulerService._update_stock_analysis_async, final state.  On a
config failure the cleared error list receives the single system error
and nothing else changes; otherwise the successful per-symbol results
(collected in completion order; failed symbols yield `none` and are
dropped without an error entry) are sorted by average score descending
and stored together with the fresh timestamp and the (still empty)
error list. -/
def update_cycle (inp : CycleInput) (s : SchedulerState) : SchedulerState :=
  match inp.symbolsResult with
  | .error msg =>
      { s with latest_errors := [systemError msg], is_updating := false }
  | .ok _ =>
      let results := inp.completion_order.filterMap
        (analyze_single_stock inp.fetch inp.analyze inp.t)
      { s with latest_analysis := sortByScoreDesc results,
               last_updated := some inp.t,
               latest_errors := [],
               is_updating := false }

/-- The successive values of the scheduler's shared fields during one
cycle, one entry per in-place mutation of
`_update_stock_analysis_async` (set flag, clear errors, then either
record the system error or store the sorted list and the timestamp,
finally release the flag).  A concurrent reader of
get_latest_analysis/get_last_updated/get_latest_errors sees one of
these states. -/
def cycle_trace (inp : CycleInput) (s : SchedulerState) : List SchedulerState :=
  let s1 := { s with is_updating := true }
  let s2 := { s1 with latest_errors := [] }
  match inp.symbolsResult with
  | .error msg =>
      let s3 := { s2 with latest_errors := [systemError msg] }
      [s, s1, s2, s3, { s3 with is_updating := false }]
  | .ok _ =>
      let results := inp.completion_order.filterMap
        (analyze_single_stock inp.fetch inp.analyze inp.t)
      let s3 := { s2 with latest_analysis := sortByScoreDesc results }
      let s4 := { s3 with last_updated := some inp.t }
      [s, s1, s2, s3, s4, { s4 with is_updating := false }]

/-- What a reader of the snapshot observes: ranked list, timestamp,
error list. -/
def readerView (s : SchedulerState) :
    List StockAnalysis × Option Nat × List RefreshError :=
  (s.latest_analysis, s.last_updated, s.latest_errors)

/-- How many records of the published list carry the given symbol. -/
def recordCount (s : SchedulerState) (sym : String) : Nat :=
  s.latest_analysis.countP (fun r => r.stock_data.symbol = sym)

/-- How many entries of the published error list carry the given symbol. -/
def errorCount (s : SchedulerState) (sym : String) : Nat :=
  s.latest_errors.countP (fun e => e.symbol = sym)

theorem countP_filterMap {α β : Type} (f : α → Option β) (p : β → Bool)
    (l : List α) :
    (l.filterMap f).countP p =
      l.countP (fun a => ((f a).map p).getD false) := by
  induction l with
  | nil => rfl
  | cons a t ih =>
      cases h : f a <;>
        simp [List.filterMap_cons, h, List.countP_cons, ih]

theorem countP_nodup_single {l : List String} (S : String) (g : String → Bool)
    (hnd : l.Nodup) (hS : S ∈ l) :
    l.countP (fun T => decide (T = S) && g T) = (if g S then 1 else 0) := by
  induction l with
  | nil => cases hS
  | cons a t ih =>
      rcases List.nodup_cons.mp hnd with ⟨hat, hndt⟩
      rcases List.mem_cons.mp hS with rfl | hSt
      · have hzero : t.countP (fun T => decide (T = S) && g T) = 0 := by
          rw [List.countP_eq_zero]
          intro x hx
          have hxS : ¬ (x = S) := fun hxa => hat (hxa ▸ hx)
          simp [hxS]
        rw [List.countP_cons, hzero]
        by_cases hg : g S <;> simp [hg]
      · have haS : ¬ (a = S) := fun h => hat (h ▸ hSt)
        rw [List.countP_cons, ih hndt hSt]
        simp [haS]

theorem analyze_single_stock_symbol {fetch : String → Except PyExc (Option StockData)}
    {analyze : StockData → Except PyExc AIAnalysis} {t : Nat} {T : String}
    {r : StockAnalysis}
    (hsym : ∀ U sd, fetch U = .ok (some sd) → sd.symbol = U)
    (h : analyze_single_stock fetch analyze t T = some r) :
    r.stock_data.symbol = T := by
  cases hf : fetch T with
  | error e => simp [analyze_single_stock, hf] at h
  | ok od =>
      cases od with
      | none => simp [analyze_single_stock, hf] at h
      | some sd =>
          cases ha : analyze sd with
          | error e => simp [analyze_single_stock, hf, ha] at h
          | ok a =>
              simp only [analyze_single_stock, hf, ha, Option.some.injEq] at h
              subst h
              exact hsym T sd hf

theorem analyze_single_stock_shape {fetch : String → Except PyExc (Option StockData)}
    {analyze : StockData → Except PyExc AIAnalysis} {t : Nat} {T : String}
    {r : StockAnalysis}
    (h : analyze_single_stock fetch analyze t T = some r) :
    ∃ a, r.ai_analysis.analyses = [a] ∧
      r.ai_analysis.average_score = (a.score : ℚ) := by
  cases hf : fetch T with
  | error e => simp [analyze_single_stock, hf] at h
  | ok od =>
      cases od with
      | none => simp [analyze_single_stock, hf] at h
      | some sd =>
          cases ha : analyze sd with
          | error e => simp [analyze_single_stock, hf, ha] at h
          | ok a =>
              simp only [analyze_single_stock, hf, ha, Option.some.injEq] at h
              subst h
              exact ⟨a, rfl, rfl⟩

/-! ## Concrete fixtures used by counterexamples and witnesses -/

/-- A plain quote as a provider would return it. -/
def mkStock (sym : String) : StockData :=
  { symbol := sym, current_price := 100, previous_close := 100,
    change_percent := 0, volume := 1000000, market_cap := none,
    last_updated := 0 }

/-- A fetcher for which every symbol succeeds. -/
def fetchOk : String → Except PyExc (Option StockData) :=
  fun sym => .ok (some (mkStock sym))

/-- A scorer that always returns the same score. -/
def scoreConst (n : Int) : StockData → Except PyExc AIAnalysis :=
  fun _ => .ok { ai_model := .basic, score := n, reason := "ok" }

/-- The scheduler state before any cycle has run
(SchedulerService.__init__). -/
def s0empty : SchedulerState :=
  { latest_analysis := [], last_updated := none, latest_errors := [],
    is_updating := false }

/-- A previously published record, used as the pre-cycle snapshot. -/
def recOld : StockAnalysis :=
  { stock_data := mkStock "GOOGL",
    ai_analysis := { analyses := [{ ai_model := .basic, score := 70, reason := "r" }],
                     average_score := 70, timestamp := 0 },
    timestamp := 0 }

/-- An error left over from the previous cycle. -/
def errOld : RefreshError :=
  { type := "general", symbol := "MSFT", message := "old error" }

/-- A scheduler state left by an earlier completed cycle. -/
def s0prev : SchedulerState :=
  { latest_analysis := [recOld], last_updated := some 100,
    latest_errors := [errOld], is_updating := false }

/-! ## C1: every configured symbol appears exactly once in the snapshot -/

/-- The property claimed by C1: after the cycle, each configured symbol
is either exactly one analysis record or exactly one refresh error. -/
def perSymbolExactlyOnce (inp : CycleInput) (s : SchedulerState) : Prop :=
  match inp.symbolsResult with
  | .error _ => True
  | .ok syms => ∀ S ∈ syms,
      recordCount (update_cycle inp s) S + errorCount (update_cycle inp s) S = 1

/-- C1 counterexample: with the single configured symbol "TSLA" whose
quote fetch fails, the completed cycle publishes a snapshot in which
"TSLA" is neither an analysis record nor a refresh error —
analyze_single_stock swallows the exception and returns None, and no
error entry is ever appended for the symbol. -/
theorem failed_symbol_in_neither_list_cex :
    ¬ perSymbolExactlyOnce
      { fetch := fun _ => .error (.yahooFinance "net down"),
        analyze := scoreConst 50, symbolsResult := .ok ["TSLA"],
        completion_order := ["TSLA"], t := 5 } s0empty :=
  fun h => absurd (h "TSLA" (by decide)) (by decide)

/-- C1 (amended): after a completed cycle over a duplicate-free symbol
list, a symbol whose analysis succeeds appears as exactly one analysis
record and no refresh error, and a symbol whose analysis fails appears
in neither list (silently dropped). -/
theorem symbol_occurrence_after_cycle
    (fetch : String → Except PyExc (Option StockData))
    (analyze : StockData → Except PyExc AIAnalysis)
    (syms order : List String) (t : Nat) (s : SchedulerState)
    (hperm : order.Perm syms) (hnodup : syms.Nodup)
    (hsym : ∀ U sd, fetch U = .ok (some sd) → sd.symbol = U) :
    ∀ S ∈ syms,
      errorCount (update_cycle ⟨fetch, analyze, .ok syms, order, t⟩ s) S = 0 ∧
      recordCount (update_cycle ⟨fetch, analyze, .ok syms, order, t⟩ s) S =
        (if (analyze_single_stock fetch analyze t S).isSome then 1 else 0) := by
  intro S hS
  have hordernd : order.Nodup := (hperm.nodup_iff).mpr hnodup
  have hSorder : S ∈ order := hperm.mem_iff.mpr hS
  constructor
  · simp [errorCount, update_cycle]
  · show (sortByScoreDesc (order.filterMap
        (analyze_single_stock fetch analyze t))).countP
          (fun r => r.stock_data.symbol = S) = _
    rw [countP_sortByScoreDesc, countP_filterMap]
    have hcong : ∀ T ∈ order,
        (((analyze_single_stock fetch analyze t T).map
            (fun r => decide (r.stock_data.symbol = S))).getD false) =
          (decide (T = S) && (analyze_single_stock fetch analyze t T).isSome) := by
      intro T _
      cases h : analyze_single_stock fetch analyze t T with
      | none => simp
      | some r =>
          have hrT := analyze_single_stock_symbol hsym h
          simp [hrT]
    rw [List.countP_congr (fun T hT => by rw [hcong T hT])]
    rw [countP_nodup_single S _ hordernd hSorder]

/-- Witness for the amended C1 at a concrete successful input. -/
theorem symbol_occurrence_after_cycle_witness :
    errorCount (update_cycle ⟨fetchOk, scoreConst 50, .ok ["AAPL"], ["AAPL"], 5⟩
      s0empty) "AAPL" = 0 ∧
    recordCount (update_cycle ⟨fetchOk, scoreConst 50, .ok ["AAPL"], ["AAPL"], 5⟩
      s0empty) "AAPL" =
      (if (analyze_single_stock fetchOk (scoreConst 50) 5 "AAPL").isSome
       then 1 else 0) :=
  symbol_occurrence_after_cycle fetchOk (scoreConst 50) ["AAPL"] ["AAPL"] 5
    s0empty (List.Perm.refl _) (by decide)
    (fun U sd h => by
      simp only [fetchOk, Except.ok.injEq, Option.some.injEq] at h
      subst h
      rfl)
    "AAPL" (by decide)

/-! ## C2: published list sorted by score, ties by original symbol order -/

/-- Ties broken by position in the configured symbol list. -/
def tieBreakByInputOrder (syms : List String) (out : List StockAnalysis) : Prop :=
  out.Pairwise (fun a b => a.avgScore = b.avgScore →
    syms.findIdx (fun x => x == a.stock_data.symbol) ≤
      syms.findIdx (fun x => x == b.stock_data.symbol))

/-- The property claimed by C2 for a completed cycle. -/
def rankedByScoreThenInputOrder (inp : CycleInput) (s : SchedulerState) : Prop :=
  match inp.symbolsResult with
  | .error _ => True
  | .ok syms =>
      ((update_cycle inp s).latest_analysis).Pairwise
        (fun a b => b.avgScore ≤ a.avgScore) ∧
      tieBreakByInputOrder syms (update_cycle inp s).latest_analysis

/-- C2 counterexample: symbols ["AAPL", "TSLA"] both score 50; the
workers complete in the order ["TSLA", "AAPL"], so the stable sort
publishes TSLA before AAPL — the tie is broken by completion order,
not by the configured symbol order. -/
theorem tie_break_completion_order_cex :
    ¬ rankedByScoreThenInputOrder
      ⟨fetchOk, scoreConst 50, .ok ["AAPL", "TSLA"], ["TSLA", "AAPL"], 5⟩
      s0empty :=
  fun h => absurd h.2 (by simp only [tieBreakByInputOrder]; decide)

/-- C2 (amended): the published list is sorted by aggregate score
descending, and records with equal scores keep the order in which
their analysis tasks completed (the pre-sort collection order), which
need not be the configured symbol order. -/
theorem ranked_desc_and_completion_stable
    (fetch : String → Except PyExc (Option StockData))
    (analyze : StockData → Except PyExc AIAnalysis)
    (syms order : List String) (t : Nat) (s : SchedulerState) :
    ((update_cycle ⟨fetch, analyze, .ok syms, order, t⟩ s).latest_analysis).Pairwise
      (fun a b => b.avgScore ≤ a.avgScore) ∧
    ∀ q : ℚ,
      ((update_cycle ⟨fetch, analyze, .ok syms, order, t⟩ s).latest_analysis).filter
          (fun r => r.avgScore = q) =
        (order.filterMap (analyze_single_stock fetch analyze t)).filter
          (fun r => r.avgScore = q) := by
  constructor
  · exact sorted_sortByScoreDesc _
  · intro q
    exact filter_score_sortByScoreDesc q _

/-! ## C3: atomic snapshot publication -/

/-- The property claimed by C3: any state a reader can observe during a
cycle shows either the complete previous snapshot or the complete new
one. -/
def snapshotPublishAtomic (inp : CycleInput) (s : SchedulerState) : Prop :=
  ∀ st ∈ cycle_trace inp s,
    readerView st = readerView s ∨ readerView st = readerView (update_cycle inp s)

/-- C3 counterexample: starting from a snapshot holding one record and
one error, a new cycle first clears latest_errors in place; a reader at
that moment sees the previous ranked list and timestamp paired with an
empty error list — neither the old snapshot nor the new one. -/
theorem half_built_snapshot_observable_cex :
    ¬ snapshotPublishAtomic ⟨fetchOk, scoreConst 50, .ok [], [], 200⟩ s0prev :=
  fun h =>
    absurd (h { latest_analysis := [recOld], last_updated := some 100,
                latest_errors := [], is_updating := true } (by decide))
      (by decide)

/-- C3 (amended): publication is staged, not atomic: every successful
cycle passes through an intermediate state exposing the previous ranked
list and timestamp together with an already-cleared error list, and
only the last state of the trace equals the fully published result. -/
theorem cycle_mutates_snapshot_in_stages
    (fetch : String → Except PyExc (Option StockData))
    (analyze : StockData → Except PyExc AIAnalysis)
    (syms order : List String) (t : Nat) (s : SchedulerState) :
    (∃ st ∈ cycle_trace ⟨fetch, analyze, .ok syms, order, t⟩ s,
       st.latest_analysis = s.latest_analysis ∧
       st.last_updated = s.last_updated ∧ st.latest_errors = []) ∧
    (cycle_trace ⟨fetch, analyze, .ok syms, order, t⟩ s).getLast? =
      some (update_cycle ⟨fetch, analyze, .ok syms, order, t⟩ s) := by
  constructor
  · refine ⟨{ s with is_updating := true, latest_errors := [] }, ?_, rfl, rfl, rfl⟩
    simp [cycle_trace]
  · simp [cycle_trace, update_cycle]

/-! ## C4: wholesale failure handling -/

/-- The property claimed by C4 (the part beyond the error entry and
flag): a failed cycle still publishes, i.e. stamps the snapshot with the
cycle's completion time. -/
def wholesaleFailureStillPublishes (inp : CycleInput) (s : SchedulerState) : Prop :=
  ∀ msg, inp.symbolsResult = .error msg →
    (update_cycle inp s).latest_errors = [systemError msg] ∧
    (update_cycle inp s).is_updating = false ∧
    (update_cycle inp s).last_updated = some inp.t

/-- C4 counterexample: when reading the symbol list raises, the cycle
records the system error and releases the flag, but publishes nothing:
the snapshot keeps the previous timestamp (100, not the cycle's 200)
and the previous ranked list. -/
theorem wholesale_failure_no_publish_cex :
    ¬ wholesaleFailureStillPublishes
      ⟨fetchOk, scoreConst 50, .error "config unreadable", [], 200⟩ s0prev :=
  fun h => absurd (h "config unreadable" rfl) (by decide)

/-- C4 (amended): a wholesale failure records exactly one general
refresh error against the "system" sentinel and releases the running
flag (the cycle driver is a total function, so nothing propagates), but
it does not publish a new snapshot: the previous ranked list and
last-updated timestamp are left untouched. -/
theorem wholesale_failure_records_system_error
    (inp : CycleInput) (s : SchedulerState) (msg : String)
    (h : inp.symbolsResult = .error msg) :
    update_cycle inp s =
      { s with latest_errors := [systemError msg], is_updating := false } := by
  unfold update_cycle
  rw [h]

/-- Witness for the amended C4 at a concrete input. -/
theorem wholesale_failure_records_system_error_witness :
    update_cycle ⟨fetchOk, scoreConst 50, .error "config unreadable", [], 200⟩
        s0prev =
      { s0prev with latest_errors := [systemError "config unreadable"],
                    is_updating := false } :=
  wholesale_failure_records_system_error _ _ "config unreadable" rfl

/-! ## C10: one basic score per published record -/

/-- C10: every record published by the refresh cycle carries exactly one
score, and its aggregate average equals that score; the cycle scores
through the basic AIService only (the embedding of the scheduler
contains no call into MultiAIService). -/
theorem published_record_single_basic_score
    (fetch : String → Except PyExc (Option StockData))
    (analyze : StockData → Except PyExc AIAnalysis)
    (syms order : List String) (t : Nat) (s : SchedulerState) :
    ∀ r ∈ (update_cycle ⟨fetch, analyze, .ok syms, order, t⟩ s).latest_analysis,
      ∃ a, r.ai_analysis.analyses = [a] ∧
        r.ai_analysis.average_score = (a.score : ℚ) := by
  intro r hr
  have hr2 : r ∈ order.filterMap (analyze_single_stock fetch analyze t) :=
    mem_sortByScoreDesc.mp hr
  rcases List.mem_filterMap.mp hr2 with ⟨T, _, hres⟩
  exact analyze_single_stock_shape hres

/-- The record the witness cycle publishes. -/
def recAAPL50 : StockAnalysis :=
  { stock_data := mkStock "AAPL",
    ai_analysis := { analyses := [{ ai_model := .basic, score := 50, reason := "ok" }],
                     average_score := 50, timestamp := 5 },
    timestamp := 5 }

/-- Witness for C10 at a concrete published record. -/
theorem published_record_single_basic_score_witness :
    ∃ a, recAAPL50.ai_analysis.analyses = [a] ∧
      recAAPL50.ai_analysis.average_score = (a.score : ℚ) :=
  published_record_single_basic_score fetchOk (scoreConst 50) ["AAPL"] ["AAPL"]
    5 s0empty recAAPL50 (by decide)

/-! ## Rate limiter (services/rate_limiter.py)

Time values (time.time()) and the adaptive delay are rationals; the
float literals 0.9 and 1.5 are the exact rationals 9/10 and 3/2.  The
minute/day counters are Python dicts, modelled as insertion-ordered
association lists. -/

/-- dict.get(k, 0). -/
def dictGet (m : List (Int × Nat)) (k : Int) : Nat :=
  (((m.find? (fun kv => kv.1 == k))).map (fun kv => kv.2)).getD 0

/-- dict[k] = v (update in place, else append). -/
def dictSet (m : List (Int × Nat)) (k : Int) (v : Nat) : List (Int × Nat) :=
  if m.any (fun kv => kv.1 == k) then
    m.map (fun kv => if kv.1 == k then (k, v) else kv)
  else m ++ [(k, v)]

/-- Python int() truncates toward zero. -/
def pyTrunc (q : ℚ) : Int :=
  if q < 0 then ⌈q⌉ else ⌊q⌋

/-- The mutable state of rate_limiter.RateLimiter. -/
structure RateLimiter where
  calls_per_minute : Nat
  calls_per_day : Nat
  minute_calls : List (Int × Nat)
  day_calls : List (Int × Nat)
  last_call_time : ℚ
  retry_delay : ℚ

/-- RateLimiter.__init__: empty counters, delay starts at the 12 s
floor. -/
def RateLimiter.init (calls_per_minute calls_per_day : Nat) : RateLimiter :=
  { calls_per_minute, calls_per_day, minute_calls := [], day_calls := [],
    last_call_time := 0, retry_delay := 12 }

/-- RateLimiter.record_call: bump both counters, stamp the call time,
relax the delay by 0.9 (clamped to the 12 s floor) on success or grow
it by 1.5 (capped at 300 s) on failure, then prune counters older than
one hour / one week. -/
def record_call (rl : RateLimiter) (now : ℚ) (success : Bool) : RateLimiter :=
  let current_minute : Int := pyTrunc (now / 60)
  let current_day : Int := pyTrunc (now / (24 * 3600))
  let minute_calls :=
    dictSet rl.minute_calls current_minute (dictGet rl.minute_calls current_minute + 1)
  let day_calls :=
    dictSet rl.day_calls current_day (dictGet rl.day_calls current_day + 1)
  let retry_delay :=
    if success then max 12 (rl.retry_delay * (9 / 10))
    else min 300 (rl.retry_delay * (3 / 2))
  { rl with
    minute_calls := minute_calls.filter (fun kv => kv.1 > current_minute - 60),
    day_calls := day_calls.filter (fun kv => kv.1 > current_day - 7),
    last_call_time := now,
    retry_delay := retry_delay }

/-- A sequence of record_call invocations (timestamp, success). -/
def run_calls (rl : RateLimiter) (events : List (ℚ × Bool)) : RateLimiter :=
  events.foldl (fun r e => record_call r e.1 e.2) rl

theorem record_call_delay_bounds (rl : RateLimiter) (now : ℚ) (success : Bool)
    (h12 : 12 ≤ rl.retry_delay) (h300 : rl.retry_delay ≤ 300) :
    12 ≤ (record_call rl now success).retry_delay ∧
      (record_call rl now success).retry_delay ≤ 300 := by
  have h0 : (0 : ℚ) ≤ rl.retry_delay := le_trans (by norm_num) h12
  cases success with
  | true =>
      constructor
      · exact le_max_left _ _
      · refine max_le (by norm_num) ?_
        calc rl.retry_delay * (9 / 10) ≤ rl.retry_delay * 1 := by
              exact mul_le_mul_of_nonneg_left (by norm_num) h0
          _ = rl.retry_delay := mul_one _
          _ ≤ 300 := h300
  | false =>
      constructor
      · refine le_min (by norm_num) ?_
        calc (12 : ℚ) ≤ rl.retry_delay := h12
          _ = rl.retry_delay * 1 := (mul_one _).symm
          _ ≤ rl.retry_delay * (3 / 2) := by
              exact mul_le_mul_of_nonneg_left (by norm_num) h0
      · exact min_le_left _ _

/-- C7: the adaptive delay follows the claimed geometry: success
multiplies by 0.9 clamped below at the 12 s floor and never increases
the delay (strictly decreasing toward the floor while above it);
failure multiplies by 1.5 capped at 300 s and strictly increases the
delay while it is below the cap; and any sequence of record_call
invocations keeps the delay within [12, 300]. -/
theorem rate_limiter_delay_adaptation :
    (∀ rl : RateLimiter, ∀ now : ℚ,
      (record_call rl now true).retry_delay = max 12 (rl.retry_delay * (9 / 10)) ∧
      (record_call rl now false).retry_delay = min 300 (rl.retry_delay * (3 / 2))) ∧
    (∀ rl : RateLimiter, ∀ now : ℚ, 12 ≤ rl.retry_delay →
      12 ≤ (record_call rl now true).retry_delay ∧
      (record_call rl now true).retry_delay ≤ rl.retry_delay ∧
      (12 < rl.retry_delay →
        (record_call rl now true).retry_delay < rl.retry_delay)) ∧
    (∀ rl : RateLimiter, ∀ now : ℚ, 12 ≤ rl.retry_delay →
      (record_call rl now false).retry_delay ≤ 300 ∧
      (rl.retry_delay < 300 →
        rl.retry_delay < (record_call rl now false).retry_delay)) ∧
    (∀ events : List (ℚ × Bool), ∀ rl : RateLimiter,
      12 ≤ rl.retry_delay → rl.retry_delay ≤ 300 →
      12 ≤ (run_calls rl events).retry_delay ∧
        (run_calls rl events).retry_delay ≤ 300) := by
  refine ⟨fun rl now => ⟨rfl, rfl⟩, fun rl now h12 => ?_, fun rl now h12 => ?_,
    fun events => ?_⟩
  · have h0 : (0 : ℚ) ≤ rl.retry_delay := le_trans (by norm_num) h12
    refine ⟨le_max_left _ _, ?_, ?_⟩
    · refine max_le h12 ?_
      nlinarith
    · intro hgt
      show max 12 (rl.retry_delay * (9 / 10)) < rl.retry_delay
      refine max_lt hgt ?_
      nlinarith
  · have h0 : (0 : ℚ) < rl.retry_delay := lt_of_lt_of_le (by norm_num) h12
    refine ⟨min_le_left _ _, ?_⟩
    intro hlt
    show rl.retry_delay < min 300 (rl.retry_delay * (3 / 2))
    refine lt_min hlt ?_
    nlinarith
  · induction events with
    | nil => exact fun rl h12 h300 => ⟨h12, h300⟩
    | cons e es ih =>
        intro rl h12 h300
        have hstep := record_call_delay_bounds rl e.1 e.2 h12 h300
        exact ih (record_call rl e.1 e.2) hstep.1 hstep.2

/-- Witness for C7: a concrete success/failure sequence from the
initial limiter state stays within the bounds. -/
theorem rate_limiter_delay_adaptation_witness :
    12 ≤ (run_calls (RateLimiter.init 5 1000)
        [(0, true), (15, false), (40, false), (70, true)]).retry_delay ∧
      (run_calls (RateLimiter.init 5 1000)
        [(0, true), (15, false), (40, false), (70, true)]).retry_delay ≤ 300 :=
  rate_limiter_delay_adaptation.2.2.2
    [(0, true), (15, false), (40, false), (70, true)]
    (RateLimiter.init 5 1000) (by norm_num [RateLimiter.init])
    (by norm_num [RateLimiter.init])

/-! ## Stock service exceptions (services/stock_service.py, exceptions.py)

stock_service.py line 9 imports YahooFinanceException,
AlphaVantageException and PolygonException from app.exceptions, and its
strict-mode error paths raise PolygonException for the polygon data
source.  exceptions.py, however, never defines a PolygonException
class, so loading stock_service raises ImportError before any fetch can
run: the polygon-typed error behavior written in fetch_stock_data is
unrealizable. -/

/-- The exception classes exceptions.py defines. -/
def exceptions_py_defines : List String :=
  ["StockDataException", "YahooFinanceException", "AlphaVantageException",
   "AIAnalysisException", "OpenAIException", "GroqException"]

/-- The names stock_service.py line 9 imports from app.exceptions. -/
def stock_service_imported_exceptions : List String :=
  ["YahooFinanceException", "AlphaVantageException", "PolygonException"]

/-- C5 (code bug): the PolygonException class that fetch_stock_data is
specified to raise for the polygon source is imported by
stock_service.py but defined nowhere in exceptions.py, so the import
fails and the provider-specific typed-error contract cannot hold for
the polygon backend. -/
theorem polygon_exception_never_defined :
    "PolygonException" ∈ stock_service_imported_exceptions ∧
      "PolygonException" ∉ exceptions_py_defines := by
  decide


/-! ## AI scoring service (services/ai_service.py, multi_ai_service.py)

The completion text returned by the scoring backend is an oracle
`Except String String` (error = any API failure the wrapper catches);
json.loads on that text is an oracle `String → ParsedJson`.  A JSON
object is abstracted to its optional "score" and "reason" fields, the
score field being `nonInt` when Python's int() would fail on its
value.  Crucially, every AIAnalysis construction in ai_service.py
(lines 110, 158, 209) omits the required ai_model field, so pydantic
raises ValidationError there; the embeddings below thread that raise
through the module's exception handlers. -/

/-- The value of the "score" field of a parsed JSON object, as seen by
int(). -/
inductive JsonScore where
  | int (i : Int)
  | nonInt
deriving DecidableEq, Repr

/-- Outcome of json.loads on the backend's text. -/
inductive ParsedJson where
  | failed
  | obj (score : Option JsonScore) (reason : Option String)
deriving DecidableEq, Repr

/-- The fallback reason computed when the backend's text is not JSON:
analysis_text[:200] if analysis_text else "AI analysis completed". -/
def fallbackReason (analysis_text : String) : String :=
  if analysis_text = "" then "AI analysis completed" else analysis_text.take 200

/-- The per-company score adjustment table of
AIService._generate_mock_analysis. -/
def company_adjustments (symbol : String) : Int :=
  if symbol = "AAPL" then 15
  else if symbol = "GOOGL" then 10
  else if symbol = "MSFT" then 15
  else if symbol = "TSLA" then 5
  else if symbol = "AMZN" then 10
  else if symbol = "NVDA" then 20
  else if symbol = "META" then 0
  else if symbol = "NFLX" then -5
  else 0

/-- The company-name table of AIService._generate_mock_reasoning. -/
def company_info (symbol : String) : String :=
  if symbol = "AAPL" then "Apple Inc."
  else if symbol = "GOOGL" then "Alphabet Inc."
  else if symbol = "MSFT" then "Microsoft Corporation"
  else if symbol = "TSLA" then "Tesla Inc."
  else if symbol = "AMZN" then "Amazon.com Inc."
  else if symbol = "NVDA" then "NVIDIA Corporation"
  else if symbol = "META" then "Meta Platforms Inc."
  else if symbol = "NFLX" then "Netflix Inc."
  else symbol ++ " Corporation"

/-- Python's "+.1f" float format, approximated over the rationals by
rounding to one decimal place. -/
def fmtSigned1 (q : ℚ) : String :=
  let n : Int := round (q * 10)
  (if n < 0 then "-" else "+") ++
    toString (n.natAbs / 10) ++ "." ++ toString (n.natAbs % 10)

/-- Python's ".1f" float format, approximated over the rationals by
rounding to one decimal place. -/
def fmt1 (q : ℚ) : String :=
  let n : Int := round (q * 10)
  (if n < 0 then "-" else "") ++
    toString (n.natAbs / 10) ++ "." ++ toString (n.natAbs % 10)

/-- AIService._generate_mock_reasoning. -/
def generate_mock_reasoning (symbol : String) (score : Int)
    (change_percent : ℚ) (sd : StockData) : String :=
  let company_name := company_info symbol
  let performance_desc :=
    if score ≥ 75 then
      (if change_percent > 0 then "strong upward momentum"
       else "resilient performance despite market conditions")
    else if score ≥ 60 then
      (if |change_percent| < 1 then "steady performance"
       else "moderate volatility")
    else if score ≥ 40 then
      (if |change_percent| < 2 then "mixed signals"
       else "concerning volatility")
    else
      (if change_percent < 0 then "declining performance"
       else "uncertain momentum")
  let outlook :=
    if score ≥ 75 then
      "Excellent investment opportunity with strong fundamentals and positive market sentiment."
    else if score ≥ 60 then
      "Good investment potential with balanced risk-reward profile."
    else if score ≥ 40 then
      "Neutral outlook with moderate investment risk."
    else
      "Higher risk investment requiring careful consideration."
  let volume_analysis :=
    if sd.volume > 100000000 then
      "high trading volume indicates strong investor interest"
    else "moderate trading activity"
  company_name ++ " shows " ++ performance_desc ++ " with a " ++
    fmtSigned1 change_percent ++ "% daily change. The " ++ volume_analysis ++
    ". " ++ outlook

/-- AIService._generate_mock_analysis: base 50, adjusted by daily
performance bands and the company table, plus random.randint(-10, 10)
(the `rand` parameter), clamped to [10, 90] — but the final
AIAnalysis(score=..., reason=...) at ai_service.py:209 omits the
required ai_model field, so the construction raises ValidationError
and the function never returns a value. -/
def generate_mock_analysis (sd : StockData) (rand : Int) :
    Except PyExc AIAnalysis :=
  let base_score : Int := 50 +
    (if sd.change_percent > 2 then 20
     else if sd.change_percent > 0 then 10
     else if sd.change_percent < -2 then -20
     else if sd.change_percent < 0 then -10
     else 0)
  let base_score := base_score + company_adjustments sd.symbol + rand
  let score := max 10 (min 90 base_score)
  pydanticAIAnalysis none score
    (generate_mock_reasoning sd.symbol score sd.change_percent sd)

/-- AIService._get_real_analysis_groq.  The try block completes the
prompt, parses the JSON (a parse failure selecting the score-50
fallback values), and constructs models.AIAnalysis without the
required ai_model keyword (ai_service.py:110), which raises
ValidationError.  Every exception of the try block reaches the
`except Exception` handler (ai_service.py:112-118): DEBUG mode calls
_generate_mock_analysis — whose own construction raises ValidationError
out of the handler — and strict mode raises GroqException wrapping the
caught message. -/
def get_real_analysis_groq (debug : Bool) (apiResult : Except String String)
    (parse : String → ParsedJson) (stock_data : StockData) (rand : Int) :
    Except PyExc AIAnalysis :=
  let handler : PyExc → Except PyExc AIAnalysis := fun e =>
    if debug then generate_mock_analysis stock_data rand
    else .error (.groq ("Groq API error for " ++ stock_data.symbol ++ ": " ++
      e.msg))
  match apiResult with
  | .error e => handler (.generic e)
  | .ok analysis_text =>
      match parse analysis_text with
      | .failed =>
          match pydanticAIAnalysis none 50 (fallbackReason analysis_text) with
          | .ok a => .ok a
          | .error e => handler e
      | .obj none reason =>
          match pydanticAIAnalysis none (max 0 (min 100 50))
              (reason.getD "AI analysis completed") with
          | .ok a => .ok a
          | .error e => handler e
      | .obj (some (.int i)) reason =>
          match pydanticAIAnalysis none (max 0 (min 100 i))
              (reason.getD "AI analysis completed") with
          | .ok a => .ok a
          | .error e => handler e
      | .obj (some .nonInt) _ =>
          handler (.generic "invalid literal for int() with base 10")

/-- AIService._get_real_analysis_open_ai: identical logic with the
OpenAI backend and exception type; its AIAnalysis construction
(ai_service.py:158) also omits ai_model and raises. -/
def get_real_analysis_open_ai (debug : Bool) (apiResult : Except String String)
    (parse : String → ParsedJson) (stock_data : StockData) (rand : Int) :
    Except PyExc AIAnalysis :=
  let handler : PyExc → Except PyExc AIAnalysis := fun e =>
    if debug then generate_mock_analysis stock_data rand
    else .error (.openAI ("OpenAI API error for " ++ stock_data.symbol ++
      ": " ++ e.msg))
  match apiResult with
  | .error e => handler (.generic e)
  | .ok analysis_text =>
      match parse analysis_text with
      | .failed =>
          match pydanticAIAnalysis none 50 (fallbackReason analysis_text) with
          | .ok a => .ok a
          | .error e => handler e
      | .obj none reason =>
          match pydanticAIAnalysis none (max 0 (min 100 50))
              (reason.getD "AI analysis completed") with
          | .ok a => .ok a
          | .error e => handler e
      | .obj (some (.int i)) reason =>
          match pydanticAIAnalysis none (max 0 (min 100 i))
              (reason.getD "AI analysis completed") with
          | .ok a => .ok a
          | .error e => handler e
      | .obj (some .nonInt) _ =>
          handler (.generic "invalid literal for int() with base 10")

/-- MultiAIService._get_analysis_openai: parse the completion as JSON
and return the score and reason exactly as parsed — no clamping; the
ai_model field is passed here, so the construction succeeds; every
failure (API error, parse failure, missing field, non-integer score)
is caught and yields None. -/
def multi_get_analysis_openai (ai_model : AIModelType)
    (apiResult : Except String String) (parse : String → ParsedJson) :
    Option AIAnalysis :=
  match apiResult with
  | .error _ => none
  | .ok result =>
      match parse result with
      | .failed => none
      | .obj none _ => none
      | .obj (some .nonInt) _ => none
      | .obj (some (.int _)) none => none
      | .obj (some (.int i)) (some reason) =>
          some { ai_model := ai_model, score := i, reason := reason }

/-- MultiAIService._get_analysis_groq: same contract against the Groq
backend. -/
def multi_get_analysis_groq (ai_model : AIModelType)
    (apiResult : Except String String) (parse : String → ParsedJson) :
    Option AIAnalysis :=
  match apiResult with
  | .error _ => none
  | .ok result =>
      match parse result with
      | .failed => none
      | .obj none _ => none
      | .obj (some .nonInt) _ => none
      | .obj (some (.int _)) none => none
      | .obj (some (.int i)) (some reason) =>
          some { ai_model := ai_model, score := i, reason := reason }

/-- MultiAIService._generate_model_specific_reasoning. -/
def multi_model_reasoning (symbol : String) (score : Int)
    (change_percent : ℚ) (ai_model : AIModelType) : String :=
  match ai_model with
  | .warren_buffet =>
      if score ≥ 70 then
        symbol ++ " shows strong value characteristics with a " ++
          fmt1 change_percent ++
          "% daily change. The company demonstrates solid fundamentals and long-term growth potential at current valuations."
      else if score ≥ 40 then
        symbol ++ " presents mixed value signals. While the " ++
          fmt1 change_percent ++
          "% performance is noteworthy, more analysis of intrinsic value and competitive moats is needed."
      else
        symbol ++ " appears overvalued based on current metrics. The " ++
          fmt1 change_percent ++
          "% change suggests market sentiment may be disconnected from fundamental value."
  | .peter_lynch =>
      if score ≥ 70 then
        symbol ++ " exhibits strong growth momentum with " ++
          fmt1 change_percent ++
          "% daily performance. The company shows promising earnings growth potential at reasonable valuations (GARP strategy)."
      else if score ≥ 40 then
        symbol ++ " shows moderate growth prospects. The " ++
          fmt1 change_percent ++
          "% change indicates some momentum, but growth sustainability needs closer examination."
      else
        symbol ++ " lacks compelling growth characteristics. The " ++
          fmt1 change_percent ++
          "% performance suggests limited near-term growth catalysts."
  | .dcf_math =>
      if score ≥ 70 then
        symbol ++ " demonstrates strong quantitative metrics. Mathematical models suggest fair value above current price based on discounted cash flow analysis and " ++
          fmt1 change_percent ++ "% performance indicators."
      else if score ≥ 40 then
        symbol ++ " shows mixed quantitative signals. DCF models indicate neutral valuation with " ++
          fmt1 change_percent ++ "% performance within expected volatility ranges."
      else
        symbol ++ " exhibits concerning mathematical indicators. DCF analysis suggests potential overvaluation with " ++
          fmt1 change_percent ++ "% performance below model expectations."
  | .basic =>
      if score ≥ 70 then
        symbol ++ " shows positive technical and fundamental indicators with " ++
          fmt1 change_percent ++ "% daily performance suggesting bullish momentum."
      else if score ≥ 40 then
        symbol ++ " presents mixed signals with " ++ fmt1 change_percent ++
          "% change. Market conditions appear neutral for this position."
      else
        symbol ++ " shows concerning patterns with " ++ fmt1 change_percent ++
          "% performance indicating potential downside risks."

/-- MultiAIService._generate_mock_analysis: model-specific base
adjustments plus bounded randomness (the `rand` parameter), clamped to
[0, 100]; the ai_model field is passed (multi_ai_service.py:251-255), so
this construction succeeds.  The dcf_math branch follows Python
truthiness on the optional market cap and int() truncation of
change_percent * 2. -/
def multi_generate_mock_analysis (sd : StockData) (ai_model : AIModelType)
    (rand : Int) : AIAnalysis :=
  let base_score : Int := 50
  let base_score :=
    match ai_model with
    | .warren_buffet =>
        (if sd.change_percent < -5 then base_score + 15
         else if sd.change_percent > 5 then base_score - 10
         else base_score) + rand
    | .peter_lynch =>
        (if sd.change_percent > 2 then base_score + 20
         else if sd.change_percent < -2 then base_score - 15
         else base_score) + rand
    | .dcf_math =>
        (if (sd.market_cap.map (fun mc => decide (mc > 100000000000))).getD false
         then base_score + 10 else base_score) +
          pyTrunc (sd.change_percent * 2) + rand
    | .basic =>
        (if sd.change_percent > 0 then base_score + 10
         else base_score - 10) + rand
  let score := max 0 (min 100 base_score)
  { ai_model := ai_model, score := score,
    reason := multi_model_reasoning sd.symbol score sd.change_percent ai_model }

theorem multi_generate_mock_analysis_bounds (sd : StockData)
    (ai_model : AIModelType) (rand : Int) :
    0 ≤ (multi_generate_mock_analysis sd ai_model rand).score ∧
      (multi_generate_mock_analysis sd ai_model rand).score ≤ 100 :=
  ⟨le_max_left _ _, max_le (by norm_num) (min_le_left _ _)⟩

theorem generate_mock_analysis_raises (sd : StockData) (rand : Int) :
    generate_mock_analysis sd rand =
      .error (.validationError pydanticValidationMsg) :=
  rfl

theorem get_real_analysis_groq_never_ok (debug : Bool)
    (apiResult : Except String String) (parse : String → ParsedJson)
    (sd : StockData) (rand : Int) :
    ∃ e, get_real_analysis_groq debug apiResult parse sd rand = .error e := by
  have hhandler : ∀ e : PyExc, ∃ e2 : PyExc,
      (if debug then generate_mock_analysis sd rand
       else .error (.groq ("Groq API error for " ++ sd.symbol ++ ": " ++
         e.msg))) = .error e2 := by
    intro e
    cases debug with
    | true => exact ⟨_, generate_mock_analysis_raises sd rand⟩
    | false => exact ⟨_, rfl⟩
  cases apiResult with
  | error e => exact hhandler (.generic e)
  | ok text =>
      rcases hhandler (.validationError pydanticValidationMsg) with ⟨e2, he2⟩
      rcases hhandler (.generic "invalid literal for int() with base 10")
        with ⟨e3, he3⟩
      cases hp : parse text with
      | failed =>
          exact ⟨e2, by
            simp only [get_real_analysis_groq, hp, pydanticAIAnalysis]
            exact he2⟩
      | obj sc reason =>
          cases sc with
          | none =>
              exact ⟨e2, by
                simp only [get_real_analysis_groq, hp, pydanticAIAnalysis]
                exact he2⟩
          | some js =>
              cases js with
              | int i =>
                  exact ⟨e2, by
                    simp only [get_real_analysis_groq, hp, pydanticAIAnalysis]
                    exact he2⟩
              | nonInt =>
                  exact ⟨e3, by
                    simp only [get_real_analysis_groq, hp]
                    exact he3⟩

theorem get_real_analysis_open_ai_never_ok (debug : Bool)
    (apiResult : Except String String) (parse : String → ParsedJson)
    (sd : StockData) (rand : Int) :
    ∃ e, get_real_analysis_open_ai debug apiResult parse sd rand = .error e := by
  have hhandler : ∀ e : PyExc, ∃ e2 : PyExc,
      (if debug then generate_mock_analysis sd rand
       else .error (.openAI ("OpenAI API error for " ++ sd.symbol ++ ": " ++
         e.msg))) = .error e2 := by
    intro e
    cases debug with
    | true => exact ⟨_, generate_mock_analysis_raises sd rand⟩
    | false => exact ⟨_, rfl⟩
  cases apiResult with
  | error e => exact hhandler (.generic e)
  | ok text =>
      rcases hhandler (.validationError pydanticValidationMsg) with ⟨e2, he2⟩
      rcases hhandler (.generic "invalid literal for int() with base 10")
        with ⟨e3, he3⟩
      cases hp : parse text with
      | failed =>
          exact ⟨e2, by
            simp only [get_real_analysis_open_ai, hp, pydanticAIAnalysis]
            exact he2⟩
      | obj sc reason =>
          cases sc with
          | none =>
              exact ⟨e2, by
                simp only [get_real_analysis_open_ai, hp, pydanticAIAnalysis]
                exact he2⟩
          | some js =>
              cases js with
              | int i =>
                  exact ⟨e2, by
                    simp only [get_real_analysis_open_ai, hp, pydanticAIAnalysis]
                    exact he2⟩
              | nonInt =>
                  exact ⟨e3, by
                    simp only [get_real_analysis_open_ai, hp]
                    exact he3⟩

/-! ## C8: every produced score lies in [0, 100] -/

/-- The property claimed by C8: every scoring path — the basic backend
parses, the basic synthetic generator, the multi-persona backend
parses, and the multi-persona synthetic generator — yields a score
within [0, 100] whenever it yields a Score at all. -/
def allScoresClamped : Prop :=
  (∀ debug apiResult parse sd rand a,
     get_real_analysis_groq debug apiResult parse sd rand = .ok a →
     0 ≤ a.score ∧ a.score ≤ 100) ∧
  (∀ debug apiResult parse sd rand a,
     get_real_analysis_open_ai debug apiResult parse sd rand = .ok a →
     0 ≤ a.score ∧ a.score ≤ 100) ∧
  (∀ sd rand a, generate_mock_analysis sd rand = .ok a →
     0 ≤ a.score ∧ a.score ≤ 100) ∧
  (∀ sd ai_model rand,
     0 ≤ (multi_generate_mock_analysis sd ai_model rand).score ∧
     (multi_generate_mock_analysis sd ai_model rand).score ≤ 100) ∧
  (∀ ai_model apiResult parse a,
     multi_get_analysis_openai ai_model apiResult parse = some a →
     0 ≤ a.score ∧ a.score ≤ 100) ∧
  (∀ ai_model apiResult parse a,
     multi_get_analysis_groq ai_model apiResult parse = some a →
     0 ≤ a.score ∧ a.score ≤ 100)

/-- C8 counterexample: the multi-persona parse path performs no
clamping — when the backend answers with score 150 the returned
AIAnalysis carries score 150, outside [0, 100]. -/
theorem multi_parse_unclamped_cex : ¬ allScoresClamped :=
  fun h =>
    absurd
      ((h.2.2.2.2.1 .basic (.ok "resp")
        (fun _ => .obj (some (.int 150)) (some "great"))
        { ai_model := .basic, score := 150, reason := "great" } rfl).2)
      (by decide)

/-- C8 (amended): the multi-persona synthetic generator clamps its
scores to [0, 100], while the multi-persona backend parse returns the
parsed integer unclamped, exactly as the backend sent it; and the
basic ai_service paths produce no Score at all — their AIAnalysis
constructions omit the required ai_model field, so the backend-parse
wrappers always raise (surfaced as GroqException/OpenAIException in
strict mode) and the basic synthetic generator raises ValidationError. -/
theorem scores_clamped_except_multi_parse :
    (∀ sd ai_model rand,
       0 ≤ (multi_generate_mock_analysis sd ai_model rand).score ∧
       (multi_generate_mock_analysis sd ai_model rand).score ≤ 100) ∧
    (∀ ai_model text parse i reason,
       parse text = .obj (some (.int i)) (some reason) →
       multi_get_analysis_openai ai_model (.ok text) parse =
         some { ai_model := ai_model, score := i, reason := reason } ∧
       multi_get_analysis_groq ai_model (.ok text) parse =
         some { ai_model := ai_model, score := i, reason := reason }) ∧
    (∀ debug apiResult parse sd rand,
       ∃ e, get_real_analysis_groq debug apiResult parse sd rand = .error e) ∧
    (∀ debug apiResult parse sd rand,
       ∃ e, get_real_analysis_open_ai debug apiResult parse sd rand =
         .error e) ∧
    (∀ sd rand, generate_mock_analysis sd rand =
       .error (.validationError pydanticValidationMsg)) := by
  refine ⟨multi_generate_mock_analysis_bounds, ?_,
    get_real_analysis_groq_never_ok, get_real_analysis_open_ai_never_ok,
    generate_mock_analysis_raises⟩
  intro ai_model text parse i reason hp
  constructor
  · simp [multi_get_analysis_openai, hp]
  · simp [multi_get_analysis_groq, hp]

/-- Witness for the amended C8: a concrete unclamped multi-persona
parse and a concrete raising basic generator. -/
theorem scores_clamped_except_multi_parse_witness :
    multi_get_analysis_openai .basic (.ok "resp")
        (fun _ => .obj (some (.int 150)) (some "great")) =
      some { ai_model := .basic, score := 150, reason := "great" } ∧
    generate_mock_analysis (mkStock "AAPL") 0 =
      .error (.validationError pydanticValidationMsg) :=
  ⟨(scores_clamped_except_multi_parse.2.1 .basic "resp"
      (fun _ => .obj (some (.int 150)) (some "great")) 150 "great" rfl).1,
    scores_clamped_except_multi_parse.2.2.2.2 (mkStock "AAPL") 0⟩

/-! ## C6: malformed scoring output -/

/-- C6 (code bug): when the backend's text is not parseable as JSON,
the fallback block of ai_service.py:105-108 computes score 50 and the
truncated raw text exactly as the claim says, but constructing the
result omits the required ai_model field, so the call raises instead
of returning — GroqException/OpenAIException wrapping the
ValidationError in strict mode, the propagated ValidationError itself
in DEBUG mode — and a refresh cycle using this scorer publishes the
symbol nowhere: no analysis record and no refresh error. -/
theorem malformed_ai_output_raises
    (text : String) (parse : String → ParsedJson) (sd : StockData) (rand : Int)
    (fetch : String → Except PyExc (Option StockData))
    (syms order : List String) (t : Nat) (s : SchedulerState) (S : String)
    (hp : parse text = .failed) (_hf : fetch S = .ok (some sd))
    (_hS : S ∈ syms) :
    pydanticAIAnalysis none 50 (fallbackReason text) =
      .error (.validationError pydanticValidationMsg) ∧
    get_real_analysis_groq false (.ok text) parse sd rand =
      .error (.groq ("Groq API error for " ++ sd.symbol ++ ": " ++
        pydanticValidationMsg)) ∧
    get_real_analysis_groq true (.ok text) parse sd rand =
      .error (.validationError pydanticValidationMsg) ∧
    get_real_analysis_open_ai false (.ok text) parse sd rand =
      .error (.openAI ("OpenAI API error for " ++ sd.symbol ++ ": " ++
        pydanticValidationMsg)) ∧
    recordCount (update_cycle ⟨fetch,
        fun q => get_real_analysis_groq false (.ok text) parse q rand,
        .ok syms, order, t⟩ s) S = 0 ∧
    errorCount (update_cycle ⟨fetch,
        fun q => get_real_analysis_groq false (.ok text) parse q rand,
        .ok syms, order, t⟩ s) S = 0 := by
  have hgroqfail : ∀ q : StockData,
      get_real_analysis_groq false (.ok text) parse q rand =
        .error (.groq ("Groq API error for " ++ q.symbol ++ ": " ++
          pydanticValidationMsg)) := by
    intro q
    simp [get_real_analysis_groq, hp, pydanticAIAnalysis, PyExc.msg]
  refine ⟨rfl, hgroqfail sd, ?_, ?_, ?_, ?_⟩
  · simp [get_real_analysis_groq, hp, pydanticAIAnalysis,
      generate_mock_analysis_raises]
  · simp [get_real_analysis_open_ai, hp, pydanticAIAnalysis, PyExc.msg]
  · have hnone : ∀ T, analyze_single_stock fetch
        (fun q => get_real_analysis_groq false (.ok text) parse q rand)
        t T = none := by
      intro T
      cases hft : fetch T with
      | error e => simp [analyze_single_stock, hft]
      | ok od =>
          cases od with
          | none => simp [analyze_single_stock, hft]
          | some sd2 => simp [analyze_single_stock, hft, hgroqfail sd2]
    show (sortByScoreDesc (order.filterMap (analyze_single_stock fetch
        (fun q => get_real_analysis_groq false (.ok text) parse q rand)
        t))).countP (fun r => r.stock_data.symbol = S) = 0
    rw [countP_sortByScoreDesc, countP_filterMap, List.countP_eq_zero]
    intro T _
    rw [hnone T]
    simp
  · simp [errorCount, update_cycle]

/-- Witness for C6 at a concrete malformed response. -/
theorem malformed_ai_output_raises_witness :
    pydanticAIAnalysis none 50 (fallbackReason "oops not json") =
      .error (.validationError pydanticValidationMsg) ∧
    get_real_analysis_groq false (.ok "oops not json") (fun _ => .failed)
        (mkStock "AAPL") 0 =
      .error (.groq ("Groq API error for " ++ (mkStock "AAPL").symbol ++
        ": " ++ pydanticValidationMsg)) ∧
    get_real_analysis_groq true (.ok "oops not json") (fun _ => .failed)
        (mkStock "AAPL") 0 =
      .error (.validationError pydanticValidationMsg) ∧
    get_real_analysis_open_ai false (.ok "oops not json") (fun _ => .failed)
        (mkStock "AAPL") 0 =
      .error (.openAI ("OpenAI API error for " ++ (mkStock "AAPL").symbol ++
        ": " ++ pydanticValidationMsg)) ∧
    recordCount (update_cycle ⟨fetchOk,
        fun q => get_real_analysis_groq false (.ok "oops not json")
          (fun _ => .failed) q 0,
        .ok ["AAPL"], ["AAPL"], 5⟩ s0empty) "AAPL" = 0 ∧
    errorCount (update_cycle ⟨fetchOk,
        fun q => get_real_analysis_groq false (.ok "oops not json")
          (fun _ => .failed) q 0,
        .ok ["AAPL"], ["AAPL"], 5⟩ s0empty) "AAPL" = 0 :=
  malformed_ai_output_raises "oops not json" (fun _ => .failed)
    (mkStock "AAPL") 0 fetchOk ["AAPL"] ["AAPL"] 5 s0empty "AAPL"
    rfl rfl (by decide)

/-! ## Dashboard route (api/routes.py)

`get_dashboard` embedded over: the optionally authenticated user, the
database availability flag, the outcome of get_user_stocks (error =
any exception the inner handler catches), the scheduler state (`none`
when the global scheduler instance was never set, which raises and is
caught by the same inner handler), and datetime.now().  The route
passes an is_sample_data keyword to every DashboardResponse it builds,
but models.DashboardResponse (models.py:120-126) declares no such
field, so pydantic silently drops it: responses carry no such flag and
the embedding has no such field. -/

/-- The fields of the authenticated user the route reads. -/
structure User where
  id : String
  username : String
  max_stocks : Nat
  subscription_tier : String
deriving DecidableEq, Repr

/-- models.ApiError. -/
structure ApiError where
  type : String
  symbol : String
  message : String
deriving DecidableEq, Repr

/-- models.DashboardResponse (subscription_tier kept as the enum's
string value; the is_sample_data keyword the route passes is not a
field of the pydantic model and is dropped). -/
structure DashboardResponse where
  stocks : List StockAnalysis
  last_updated : Nat
  total_stocks : Nat
  max_stocks : Nat
  subscription_tier : String
  errors : List ApiError
deriving DecidableEq, Repr

/-- The tier-string normalization done inline in the route. -/
def tierEnum (subscription_tier : String) : String :=
  if subscription_tier = "pro" then "pro"
  else if subscription_tier = "expert" then "expert"
  else "free"

/-- The hardcoded welcome-page sample records of get_dashboard. -/
def sampleStocks (now : Nat) : List StockAnalysis :=
  [{ stock_data :=
       { symbol := "AAPL", current_price := 175.50, previous_close := 173.15,
         change_percent := 1.36, volume := 45678900,
         market_cap := some 2750000000000, last_updated := now },
     ai_analysis :=
       { analyses :=
           [{ ai_model := .warren_buffet, score := 85,
              reason := "Strong technology company with solid fundamentals and excellent brand loyalty. High-quality business with durable competitive advantages." },
            { ai_model := .peter_lynch, score := 82,
              reason := "Growth company with strong innovation pipeline. Excellent management and consistent earnings growth." },
            { ai_model := .dcf_math, score := 88,
              reason := "Strong free cash flow generation and healthy balance sheet. Fair valuation based on discounted cash flow analysis." }],
         average_score := 85.0, timestamp := now },
     timestamp := now },
   { stock_data :=
       { symbol := "TSLA", current_price := 245.80, previous_close := 249.00,
         change_percent := -1.28, volume := 67890123,
         market_cap := some 780000000000, last_updated := now },
     ai_analysis :=
       { analyses :=
           [{ ai_model := .warren_buffet, score := 68,
              reason := "High growth potential but significant volatility and competitive risks. Requires careful evaluation of long-term prospects." },
            { ai_model := .peter_lynch, score := 75,
              reason := "Market leader in EV technology with expanding global presence. High growth story but needs monitoring of execution." },
            { ai_model := .dcf_math, score := 73,
              reason := "High growth assumptions reflected in current valuation. Sensitive to execution risk and competitive dynamics." }],
         average_score := 72.0, timestamp := now },
     timestamp := now }]

/-- The sample/welcome response returned to unauthenticated callers. -/
def sampleDashboard (now : Nat) : DashboardResponse :=
  { stocks := sampleStocks now, last_updated := now, total_stocks := 2,
    max_stocks := 5, subscription_tier := "free", errors := [] }

/-- The empty dashboard the inner exception handler returns. -/
def errorDashboard (u : User) (now : Nat) : DashboardResponse :=
  { stocks := [], last_updated := now, total_stocks := 0,
    max_stocks := u.max_stocks, subscription_tier := u.subscription_tier,
    errors := [{ type := "system_error", symbol := "SYSTEM",
                 message := "Error loading your dashboard. Please try again." }] }

/-- api/routes.get_dashboard. -/
def get_dashboard (current_user : Option User) (db_available : Bool)
    (userStocksResult : Except String (List String))
    (sched : Option SchedulerState) (now : Nat) : DashboardResponse :=
  match current_user, db_available with
  | none, _ => sampleDashboard now
  | some _, false => sampleDashboard now
  | some u, true =>
      match userStocksResult with
      | .error _ => errorDashboard u now
      | .ok user_stocks =>
          if user_stocks.isEmpty then
            { stocks := [], last_updated := now, total_stocks := 0,
              max_stocks := u.max_stocks,
              subscription_tier := tierEnum u.subscription_tier,
              errors := [] }
          else
            match sched with
            | none => errorDashboard u now
            | some s =>
                let upperStocks := user_stocks.map String.toUpper
                let filtered := s.latest_analysis.filter
                  (fun a => upperStocks.contains a.stock_data.symbol.toUpper)
                let analyzed := filtered.map
                  (fun a => a.stock_data.symbol.toUpper)
                let missing := user_stocks.filter
                  (fun sym => !analyzed.contains sym.toUpper)
                let user_errors :=
                  missing.map (fun sym =>
                    ApiError.mk "analysis_missing" sym
                      ("Analysis not available for " ++ sym ++
                        ". Data will be updated soon.")) ++
                  (s.latest_errors.filter
                      (fun e => upperStocks.contains e.symbol.toUpper)).map
                    (fun e => ApiError.mk e.type e.symbol e.message)
                { stocks := filtered, last_updated := s.last_updated.getD now,
                  total_stocks := filtered.length, max_stocks := u.max_stocks,
                  subscription_tier := tierEnum u.subscription_tier,
                  errors := user_errors }

/-! ## C9: the dashboard endpoint returns the snapshot -/

/-- The property claimed by C9 (its observable half): whenever a
snapshot store exists, the endpoint answers with its ranked list and
its error list.  (The claimed triggering of a synchronous refresh
cycle has no counterpart at all in the route: the embedding is a pure
function of the stored snapshot.) -/
def dashboardReturnsSnapshot (current_user : Option User) (db_available : Bool)
    (userStocksResult : Except String (List String))
    (sched : Option SchedulerState) (now : Nat) : Prop :=
  match sched with
  | none => True
  | some s =>
      (get_dashboard current_user db_available userStocksResult sched now).stocks =
        s.latest_analysis ∧
      (get_dashboard current_user db_available userStocksResult sched now).errors =
        s.latest_errors.map (fun e => ApiError.mk e.type e.symbol e.message)

/-- C9 counterexample: an unauthenticated request against a published
snapshot holding one record is answered with the two hardcoded sample
records, not with the snapshot's contents. -/
theorem dashboard_not_snapshot_cex :
    ¬ dashboardReturnsSnapshot none true (.ok []) (some s0prev) 7 :=
  fun h => absurd (congrArg List.length h.1) (by decide)

/-- The analysis_missing entries followed by the snapshot errors
matching the tracked symbols — the error list the authenticated branch
of get_dashboard composes. -/
def composedUserErrors (user_stocks : List String) (s : SchedulerState) :
    List ApiError :=
  (user_stocks.filter (fun sym =>
      !((s.latest_analysis.filter (fun a =>
            (user_stocks.map String.toUpper).contains
              a.stock_data.symbol.toUpper)).map
          (fun a => a.stock_data.symbol.toUpper)).contains sym.toUpper)).map
    (fun sym => ApiError.mk "analysis_missing" sym
      ("Analysis not available for " ++ sym ++
        ". Data will be updated soon.")) ++
  (s.latest_errors.filter (fun e =>
      (user_stocks.map String.toUpper).contains e.symbol.toUpper)).map
    (fun e => ApiError.mk e.type e.symbol e.message)

/-- C9 (amended): the endpoint returns the hardcoded sample records
whenever the caller is unauthenticated or the database is unavailable
(the is_sample_data keyword the route also passes is not a field of
models.DashboardResponse and is dropped); for an authenticated caller
with a non-empty tracked list it returns the snapshot's records
filtered to the tracked symbols, stamped with the snapshot's
timestamp, with the analysis_missing entries for unanalyzed tracked
symbols followed by the snapshot errors matching tracked symbols; it
never initiates a refresh cycle (the route is a pure read of the
scheduler state). -/
theorem get_dashboard_behavior :
    (∀ db_available userStocksResult sched now,
      get_dashboard none db_available userStocksResult sched now =
        sampleDashboard now) ∧
    (∀ u userStocksResult sched now,
      get_dashboard (some u) false userStocksResult sched now =
        sampleDashboard now) ∧
    (∀ u user_stocks s now, user_stocks ≠ [] →
      (get_dashboard (some u) true (.ok user_stocks) (some s) now).stocks =
        s.latest_analysis.filter
          (fun a => (user_stocks.map String.toUpper).contains
            a.stock_data.symbol.toUpper) ∧
      (get_dashboard (some u) true (.ok user_stocks) (some s) now).last_updated =
        s.last_updated.getD now ∧
      (get_dashboard (some u) true (.ok user_stocks) (some s) now).errors =
        composedUserErrors user_stocks s) := by
  refine ⟨fun _ _ _ _ => rfl, fun _ _ _ _ => rfl, ?_⟩
  intro u user_stocks s now h
  cases user_stocks with
  | nil => exact absurd rfl h
  | cons hd tl => exact ⟨rfl, rfl, rfl⟩

/-- Witness for the amended C9 at a concrete authenticated request. -/
theorem get_dashboard_behavior_witness :
    (get_dashboard (some (User.mk "id1" "alice" 5 "free")) true
        (.ok ["GOOGL"]) (some s0prev) 7).stocks =
      s0prev.latest_analysis.filter
        (fun a => ((["GOOGL"].map String.toUpper)).contains
          a.stock_data.symbol.toUpper) ∧
    (get_dashboard (some (User.mk "id1" "alice" 5 "free")) true
        (.ok ["GOOGL"]) (some s0prev) 7).last_updated =
      s0prev.last_updated.getD 7 ∧
    (get_dashboard (some (User.mk "id1" "alice" 5 "free")) true
        (.ok ["GOOGL"]) (some s0prev) 7).errors =
      composedUserErrors ["GOOGL"] s0prev :=
  get_dashboard_behavior.2.2 (User.mk "id1" "alice" 5 "free") ["GOOGL"] s0prev 7
    (by simp)

end StockDash
